import Mathlib

/-!
Verification of the Progress Accounting module (`src/lib/ShiftLogic.js`) of the
kazzaz-hours-log repository, against its natural-language specification.

The file shallowly embeds the module: JavaScript runtime values relevant to the
module are modelled by `JSVal` (finite numbers as exact rationals, NaN, the two
infinities, strings, null, undefined); the storage collaborator's responses are
modelled explicitly, and each operation returns its result together with the
list of write operations it issued.  Timestamps are modelled by their rational
value in minutes since the epoch: the source stores `new Date().toISOString()`,
and the ISO-8601 rendering is injective and order-preserving, so the instant
itself is what matters for every claim.
-/

namespace ShiftLogic

/-- JavaScript runtime values as they reach this module: finite numbers
(modelled exactly as rationals), NaN, ±Infinity, strings, null and undefined. -/
inductive JSVal where
  | num (q : ℚ)
  | nan
  | inf
  | ninf
  | str (s : String)
  | null
  | undef
deriving DecidableEq

/-- JavaScript truthiness: `0`, `NaN`, `""`, `null` and `undefined` are falsy;
every other value here is truthy. -/
def truthy : JSVal → Bool
  | .num q => q != 0
  | .nan => false
  | .inf => true
  | .ninf => true
  | .str s => s != ""
  | .null => false
  | .undef => false

/-- Longest leading run of decimal digits of a character list, and the rest. -/
def takeDigits : List Char → List Char × List Char
  | [] => ([], [])
  | c :: cs =>
      if c.isDigit then
        let (d, r) := takeDigits cs
        (c :: d, r)
      else ([], c :: cs)

/-- Value of a digit string read in base 10. -/
def digitsToNat (ds : List Char) : Nat :=
  ds.foldl (fun n c => 10 * n + (c.toNat - 48)) 0

/-- Parse the longest prefix of a character list that is a decimal literal
`[+|-] digits [. digits]`; returns the value and the unconsumed rest, or
`none` when no prefix is a literal.  This models the decimal-literal core of
the JavaScript `parseFloat` / `Number` grammar (exponents and the `Infinity`
literal are outside what the storage layer produces for this module). -/
def parseDecCore (cs : List Char) : Option ℚ × List Char :=
  let (neg, cs1) :=
    match cs with
    | '-' :: r => (true, r)
    | '+' :: r => (false, r)
    | r => (false, r)
  let (ip, cs2) := takeDigits cs1
  let (fp, cs3) :=
    match cs2 with
    | '.' :: r => takeDigits r
    | r => ([], r)
  if ip.isEmpty && fp.isEmpty then (none, cs)
  else
    let v : ℚ := (digitsToNat ip : ℚ) + (digitsToNat fp : ℚ) / ((10 : ℚ) ^ fp.length)
    (some (if neg then -v else v), cs3)

/-- The built-in `parseFloat` on a string: skip leading whitespace, read the longest decimal
literal, ignore any trailing characters; NaN (`none`) when nothing parses. -/
def parseDec (s : String) : Option ℚ :=
  (parseDecCore (s.toList.dropWhile (·.isWhitespace))).1

/-- The JavaScript built-in `parseFloat` applied to a `JSVal` (the argument is
first converted to a string: `null` → `"null"` → NaN, `undefined` → NaN,
numbers round-trip). -/
def parseFloatV : JSVal → JSVal
  | .num q => .num q
  | .nan => .nan
  | .inf => .inf
  | .ninf => .ninf
  | .str s => match parseDec s with
      | some q => .num q
      | none => .nan
  | .null => .nan
  | .undef => .nan

/-- The JavaScript abstract `ToNumber` coercion: `null` → `0`, `undefined` →
NaN, a string is trimmed and must be entirely a decimal literal (the empty
string converts to `0`). -/
def toNumberV : JSVal → JSVal
  | .num q => .num q
  | .nan => .nan
  | .inf => .inf
  | .ninf => .ninf
  | .null => .num 0
  | .undef => .nan
  | .str s =>
      let t := (s.toList.dropWhile (·.isWhitespace)).reverse.dropWhile (·.isWhitespace) |>.reverse
      if t.isEmpty then .num 0
      else
        match parseDecCore t with
        | (some q, []) => .num q
        | _ => .nan

def isStr : JSVal → Bool
  | .str _ => true
  | _ => false

/-- The JavaScript `ToString` conversion, to the extent the module can exercise
it (only through `+` when one operand is a string).  Finite non-integral
numbers are rendered as `num/den`, an approximation of the double-to-string
algorithm; no claim depends on that rendering. -/
def jsToString : JSVal → String
  | .str s => s
  | .null => "null"
  | .undef => "undefined"
  | .nan => "NaN"
  | .inf => "Infinity"
  | .ninf => "-Infinity"
  | .num q => if q.den = 1 then toString q.num else toString q

/-- Addition of two already-coerced numeric values (NaN-propagating,
`∞ + (−∞)` is NaN). -/
def numAdd : JSVal → JSVal → JSVal
  | .num a, .num b => .num (a + b)
  | .num _, .inf => .inf
  | .num _, .ninf => .ninf
  | .inf, .num _ => .inf
  | .ninf, .num _ => .ninf
  | .inf, .inf => .inf
  | .ninf, .ninf => .ninf
  | _, _ => .nan

/-- The JavaScript `+` operator: string concatenation when either operand is a
string, numeric addition after `ToNumber` coercion otherwise. -/
def jsAdd (a b : JSVal) : JSVal :=
  if isStr a || isStr b then .str (jsToString a ++ jsToString b)
  else numAdd (toNumberV a) (toNumberV b)

/-- Division of two already-coerced numeric values (division by zero yields a
signed infinity, `0/0` and `∞/∞` yield NaN; the model has a single zero). -/
def numDiv : JSVal → JSVal → JSVal
  | .num a, .num b =>
      if b = 0 then (if a = 0 then .nan else if a > 0 then .inf else .ninf)
      else .num (a / b)
  | .num _, .inf => .num 0
  | .num _, .ninf => .num 0
  | .inf, .num b => if b < 0 then .ninf else .inf
  | .ninf, .num b => if b < 0 then .inf else .ninf
  | _, _ => .nan

/-- The JavaScript `/` operator (after `ToNumber` coercion). -/
def jsDiv (a b : JSVal) : JSVal := numDiv (toNumberV a) (toNumberV b)

/-- Multiplication of two already-coerced numeric values. -/
def numMul : JSVal → JSVal → JSVal
  | .num a, .num b => .num (a * b)
  | .num a, .inf => if a = 0 then .nan else if a > 0 then .inf else .ninf
  | .num a, .ninf => if a = 0 then .nan else if a > 0 then .ninf else .inf
  | .inf, .num b => if b = 0 then .nan else if b > 0 then .inf else .ninf
  | .ninf, .num b => if b = 0 then .nan else if b > 0 then .ninf else .inf
  | .inf, .inf => .inf
  | .ninf, .ninf => .inf
  | .inf, .ninf => .ninf
  | .ninf, .inf => .ninf
  | _, _ => .nan

/-- The JavaScript `*` operator (after `ToNumber` coercion). -/
def jsMul (a b : JSVal) : JSVal := numMul (toNumberV a) (toNumberV b)

/-- Order test on already-coerced, non-NaN numeric values. -/
def numLe : JSVal → JSVal → Bool
  | .ninf, _ => true
  | _, .inf => true
  | .num a, .num b => a ≤ b
  | _, _ => false

/-- The JavaScript `Math.min` of two values: NaN if either coerces to NaN,
otherwise the smaller. -/
def jsMin (a b : JSVal) : JSVal :=
  match toNumberV a, toNumberV b with
  | .nan, _ => .nan
  | _, .nan => .nan
  | x, y => if numLe x y then x else y

end ShiftLogic

namespace ShiftLogic

/-- A row of the `shifts` table as this module sees it.  `duration_minutes` is
kept as a raw `JSVal` because storage may return it as a number, a numeric
string, or null (absent while the shift is active). -/
structure Shift where
  id : String
  user_id : String
  category : String
  task_description : String
  start_time : ℚ
  end_time : Option ℚ
  status : String
  duration_minutes : JSVal
deriving DecidableEq

/-- A row of the `manual_logs` table. -/
structure ManualLog where
  id : String
  user_id : String
  date : String
  duration_minutes : JSVal
  description : String
  category : String
  status : String
  reviewed_by : Option String
  reviewed_at : Option ℚ
  created_at : ℚ
deriving DecidableEq

/-- The value object returned by `calculateProgress`. -/
structure Progress where
  shiftHours : JSVal
  approvedManualHours : JSVal
  pendingLogs : Nat
  totalHours : JSVal
  progressPercent : JSVal
  goal : ℚ
deriving DecidableEq

/-- The pure computation of `calculateProgress` on the two fetched lists
(source lines 129–148; the identical text reappears verbatim at lines 383–402
in the timeout-wrapped copy of the module):

    const shiftMinutes = shifts
      .filter(s => s.status === 'completed' && s.duration_minutes)
      .reduce((sum, s) => sum + parseFloat(s.duration_minutes), 0);
    const approvedMinutes = logs
      .filter(l => l.status === 'approved')
      .reduce((sum, l) => sum + l.duration_minutes, 0);
    const totalMinutes = shiftMinutes + approvedMinutes;
    const totalHours = totalMinutes / 60;
    const progressPercent = Math.min((totalHours / goal) * 100, 100);
-/
def computeProgress (shifts : List Shift) (logs : List ManualLog) (goal : ℚ) : Progress :=
  let shiftMinutes :=
    (shifts.filter fun s => s.status == "completed" && truthy s.duration_minutes).foldl
      (fun sum s => jsAdd sum (parseFloatV s.duration_minutes)) (.num 0)
  let approvedMinutes :=
    (logs.filter fun l => l.status == "approved").foldl
      (fun sum l => jsAdd sum l.duration_minutes) (.num 0)
  let totalMinutes := jsAdd shiftMinutes approvedMinutes
  let totalHours := jsDiv totalMinutes (.num 60)
  let progressPercent := jsMin (jsMul (jsDiv totalHours (.num goal)) (.num 100)) (.num 100)
  { shiftHours := jsDiv shiftMinutes (.num 60)
    approvedManualHours := jsDiv approvedMinutes (.num 60)
    pendingLogs := (logs.filter fun l => l.status == "pending").length
    totalHours := totalHours
    progressPercent := progressPercent
    goal := goal }

/-- An error thrown by an operation: the `checkIn` precondition conflict, the
timeout translation added by the wrapped version, or an error surfaced by (or a
rejection of) a storage call.  All are `Error` objects in JavaScript; the
constructor records the provenance the spec's error taxonomy names. -/
inductive JsError where
  | conflict (msg : String)
  | timeout (msg : String)
  | storage (msg : String)
deriving DecidableEq

/-- Outcome of one storage call as the plain module observes it: either it
resolved with `error` null and some `data`, or it failed (resolved with a
non-null `error`, or rejected) — both failure shapes make the module throw the
same error object. -/
inductive Resp (α : Type) where
  | ok (data : α)
  | fail (e : JsError)
deriving DecidableEq

/-- Outcome of one storage call as the timeout-wrapped module observes it: the
collaborator responded before the 8-second timer, or the abort fired. -/
inductive TResp (α : Type) where
  | ready (r : Resp α)
  | aborted
deriving DecidableEq

/-- A write issued to the storage collaborator: an insert of a field set, or a
field-set update of the rows matching an id-equality filter.  Field sets are
the JavaScript object literals of the source, as ordered key/value lists. -/
inductive DbOp where
  | insert (table : String) (fields : List (String × JSVal))
  | update (table : String) (idEq : String) (fields : List (String × JSVal))
deriving DecidableEq

/-- The `if (error) throw error; return data;` pattern of the plain module. -/
def runResp {α : Type} : Resp α → Except JsError α
  | .ok d => .ok d
  | .fail e => .error e

/-- The user-facing message of the `checkIn` conflict error. -/
def checkInConflictMsg : String :=
  "כבר יש לך משמרת פעילה. צא מהמשמרת הנוכחית לפני שתתחיל חדשה."

/-- The message of the error that replaces an `AbortError` in the wrapped
module. -/
def timeoutMsg : String := "הבקשה נכשלה — נסה שוב"

/-- The placeholder user name used by `getAllPendingLogs` when the joined
profile yields no name. -/
def unknownUserName : String := "לא ידוע"

/-- The `data || []` fallback on a possibly-null array result (an empty array is truthy in
JavaScript, so it is returned as is — also the empty list here). -/
def orEmpty {α : Type} : Option (List α) → List α
  | none => []
  | some l => l

/-- A row returned by the `getAllPendingLogs` select: the log columns plus the
joined `profiles ( full_name )` record, `none` when the join is empty; the
inner `JSVal` is the `full_name` value. -/
structure PendingRow where
  log : ManualLog
  profiles : Option JSVal
deriving DecidableEq

/-- A `getAllPendingLogs` output row: the input row spread plus the resolved
`user_name`. -/
structure DecoratedRow where
  log : ManualLog
  profiles : Option JSVal
  user_name : JSVal
deriving DecidableEq

/-- The decoration `{ ...log, user_name: log.profiles?.full_name || 'לא ידוע' }`. -/
def decorate (r : PendingRow) : DecoratedRow :=
  let fn := match r.profiles with
    | none => JSVal.undef
    | some v => v
  { log := r.log
    profiles := r.profiles
    user_name := if truthy fn then fn else .str unknownUserName }

/-- A row of the `get_all_students_summary` aggregation procedure, returned
verbatim. -/
structure StudentSummary where
  student_id : String
  full_name : String
  total_goal : ℚ
  shift_hours : ℚ
  approved_manual_hours : ℚ
  pending_logs : Nat
  total_hours : ℚ
  progress_percent : ℚ
deriving DecidableEq

/-- The caller-supplied payload of `submitManualLog`.  The source destructures
exactly `{ date, durationMinutes, description, category }`; `extra` models any
further fields present on the object (for example a `status` field), which the
destructuring never reads. -/
structure ManualLogPayload where
  date : String
  durationMinutes : JSVal
  description : String
  category : String
  extra : List (String × JSVal)
deriving DecidableEq

end ShiftLogic

namespace ShiftLogic.V1

/-! The plain version of the module (source lines 7–218).  Each operation is a
function of the storage collaborator's response(s); operations that write also
return the list of writes they issued. -/

/-- Operation `getActiveShift`: `.maybeSingle()`, `if (error) throw error; return data`
(`data` can be null). -/
def getActiveShift (resp : Resp (Option Shift)) : Except JsError (Option Shift) :=
  runResp resp

/-- Operation `checkIn`: reads the active shift first; on a hit throws the conflict
error and issues no write; otherwise issues the insert and returns its
result. -/
def checkIn (userId category taskDescription : String) (now : ℚ)
    (activeResp : Resp (Option Shift)) (insertResp : Resp Shift) :
    Except JsError Shift × List DbOp :=
  match getActiveShift activeResp with
  | .error e => (.error e, [])
  | .ok (some _) => (.error (.conflict checkInConflictMsg), [])
  | .ok none =>
      (runResp insertResp,
       [.insert "shifts"
          [("user_id", .str userId), ("category", .str category),
           ("task_description", .str taskDescription),
           ("start_time", .num now), ("status", .str "active")]])

/-- Operation `checkOut`: one update writing only `end_time`; the DB trigger computes
`duration_minutes` and sets `status = completed` storage-side. -/
def checkOut (shiftId : String) (now : ℚ) (resp : Resp Shift) :
    Except JsError Shift × List DbOp :=
  (runResp resp, [.update "shifts" shiftId [("end_time", .num now)]])

/-- Operation `getShifts`: `return data || []`. -/
def getShifts (resp : Resp (Option (List Shift))) : Except JsError (List Shift) :=
  match runResp resp with
  | .error e => .error e
  | .ok data => .ok (orEmpty data)

/-- Operation `submitManualLog`: one insert whose field set is built from the
destructured payload, with `status: 'pending'` written literally. -/
def submitManualLog (userId : String) (p : ManualLogPayload) (resp : Resp ManualLog) :
    Except JsError ManualLog × List DbOp :=
  (runResp resp,
   [.insert "manual_logs"
      [("user_id", .str userId), ("date", .str p.date),
       ("duration_minutes", p.durationMinutes), ("description", .str p.description),
       ("category", .str p.category), ("status", .str "pending")]])

/-- Operation `getManualLogs`: `return data || []`. -/
def getManualLogs (resp : Resp (Option (List ManualLog))) : Except JsError (List ManualLog) :=
  match runResp resp with
  | .error e => .error e
  | .ok data => .ok (orEmpty data)

/-- Operation `calculateProgress`: both fetches must succeed, then the pure computation
runs on the two lists. -/
def calculateProgress (shiftsResp : Resp (Option (List Shift)))
    (logsResp : Resp (Option (List ManualLog))) (goal : ℚ) :
    Except JsError Progress :=
  match getShifts shiftsResp, getManualLogs logsResp with
  | .ok shifts, .ok logs => .ok (computeProgress shifts logs goal)
  | .error e, _ => .error e
  | .ok _, .error e => .error e

/-- Operation `approveLog`: one update setting status, reviewer id and review
timestamp. -/
def approveLog (logId adminId : String) (now : ℚ) (resp : Resp ManualLog) :
    Except JsError ManualLog × List DbOp :=
  (runResp resp,
   [.update "manual_logs" logId
      [("status", .str "approved"), ("reviewed_by", .str adminId),
       ("reviewed_at", .num now)]])

/-- Operation `rejectLog`: one update setting status, reviewer id and review
timestamp. -/
def rejectLog (logId adminId : String) (now : ℚ) (resp : Resp ManualLog) :
    Except JsError ManualLog × List DbOp :=
  (runResp resp,
   [.update "manual_logs" logId
      [("status", .str "rejected"), ("reviewed_by", .str adminId),
       ("reviewed_at", .num now)]])

/-- Operation `getAllStudentsSummary`: `return data || []`. -/
def getAllStudentsSummary (resp : Resp (Option (List StudentSummary))) :
    Except JsError (List StudentSummary) :=
  match runResp resp with
  | .error e => .error e
  | .ok data => .ok (orEmpty data)

/-- Operation `getAllPendingLogs`: `(data || []).map(log => ({...log, user_name: ...}))`. -/
def getAllPendingLogs (resp : Resp (Option (List PendingRow))) :
    Except JsError (List DecoratedRow) :=
  match runResp resp with
  | .error e => .error e
  | .ok data => .ok ((orEmpty data).map decorate)

end ShiftLogic.V1

namespace ShiftLogic.V2

/-! The timeout-wrapped version of the module (source lines 252–481): every
storage call goes through the `query` helper (or the equivalent inline
try/catch), which aborts after 8 seconds and converts the `AbortError` into a
fresh error with a retry message; any other failure is rethrown unchanged. -/

/-- The `query` helper: on abort throw the retry-message error, otherwise
`if (result.error) throw result.error; return result.data`. -/
def query {α : Type} : TResp α → Except JsError α
  | .aborted => .error (.timeout timeoutMsg)
  | .ready (.ok d) => .ok d
  | .ready (.fail e) => .error e

/-- Operation `getActiveShift` (inline try/catch, same shape as `query`). -/
def getActiveShift (resp : TResp (Option Shift)) : Except JsError (Option Shift) :=
  match resp with
  | .aborted => .error (.timeout timeoutMsg)
  | .ready (.ok d) => .ok d
  | .ready (.fail e) => .error e

/-- Operation `checkIn`, with both storage calls going through the wrapper. -/
def checkIn (userId category taskDescription : String) (now : ℚ)
    (activeResp : TResp (Option Shift)) (insertResp : TResp Shift) :
    Except JsError Shift × List DbOp :=
  match getActiveShift activeResp with
  | .error e => (.error e, [])
  | .ok (some _) => (.error (.conflict checkInConflictMsg), [])
  | .ok none =>
      (query insertResp,
       [.insert "shifts"
          [("user_id", .str userId), ("category", .str category),
           ("task_description", .str taskDescription),
           ("start_time", .num now), ("status", .str "active")]])

/-- Operation `checkOut` through the wrapper. -/
def checkOut (shiftId : String) (now : ℚ) (resp : TResp Shift) :
    Except JsError Shift × List DbOp :=
  (query resp, [.update "shifts" shiftId [("end_time", .num now)]])

/-- Operation `getShifts` through the wrapper. -/
def getShifts (resp : TResp (Option (List Shift))) : Except JsError (List Shift) :=
  match query resp with
  | .error e => .error e
  | .ok data => .ok (orEmpty data)

/-- Operation `submitManualLog` through the wrapper. -/
def submitManualLog (userId : String) (p : ManualLogPayload) (resp : TResp ManualLog) :
    Except JsError ManualLog × List DbOp :=
  (query resp,
   [.insert "manual_logs"
      [("user_id", .str userId), ("date", .str p.date),
       ("duration_minutes", p.durationMinutes), ("description", .str p.description),
       ("category", .str p.category), ("status", .str "pending")]])

/-- Operation `getManualLogs` through the wrapper. -/
def getManualLogs (resp : TResp (Option (List ManualLog))) : Except JsError (List ManualLog) :=
  match query resp with
  | .error e => .error e
  | .ok data => .ok (orEmpty data)

/-- Operation `calculateProgress`: the fetches go through the wrapped getters; the pure
computation is the verbatim same text as in the plain version. -/
def calculateProgress (shiftsResp : TResp (Option (List Shift)))
    (logsResp : TResp (Option (List ManualLog))) (goal : ℚ) :
    Except JsError Progress :=
  match getShifts shiftsResp, getManualLogs logsResp with
  | .ok shifts, .ok logs => .ok (computeProgress shifts logs goal)
  | .error e, _ => .error e
  | .ok _, .error e => .error e

/-- Operation `approveLog` through the wrapper. -/
def approveLog (logId adminId : String) (now : ℚ) (resp : TResp ManualLog) :
    Except JsError ManualLog × List DbOp :=
  (query resp,
   [.update "manual_logs" logId
      [("status", .str "approved"), ("reviewed_by", .str adminId),
       ("reviewed_at", .num now)]])

/-- Operation `rejectLog` through the wrapper. -/
def rejectLog (logId adminId : String) (now : ℚ) (resp : TResp ManualLog) :
    Except JsError ManualLog × List DbOp :=
  (query resp,
   [.update "manual_logs" logId
      [("status", .str "rejected"), ("reviewed_by", .str adminId),
       ("reviewed_at", .num now)]])

/-- Operation `getAllStudentsSummary` (inline try/catch), `return data || []`. -/
def getAllStudentsSummary (resp : TResp (Option (List StudentSummary))) :
    Except JsError (List StudentSummary) :=
  match resp with
  | .aborted => .error (.timeout timeoutMsg)
  | .ready (.fail e) => .error e
  | .ready (.ok data) => .ok (orEmpty data)

/-- Operation `getAllPendingLogs` (inline try/catch), decoration as in the plain
version. -/
def getAllPendingLogs (resp : TResp (Option (List PendingRow))) :
    Except JsError (List DecoratedRow) :=
  match resp with
  | .aborted => .error (.timeout timeoutMsg)
  | .ready (.fail e) => .error e
  | .ready (.ok data) => .ok ((orEmpty data).map decorate)

end ShiftLogic.V2

namespace ShiftLogic

/-! Generic field-set update semantics of the record store: an update applies
exactly the columns named in the field set and leaves every other column of
the row unchanged. -/

/-- Read a string column from a field set, with the row's value as default. -/
def getStrField (fs : List (String × JSVal)) (k : String) (d : String) : String :=
  match fs.lookup k with
  | some (.str s) => s
  | _ => d

/-- Apply a field set to a `manual_logs` row. -/
def applyLogFieldSet (l : ManualLog) (fs : List (String × JSVal)) : ManualLog :=
  { id := getStrField fs "id" l.id
    user_id := getStrField fs "user_id" l.user_id
    date := getStrField fs "date" l.date
    duration_minutes := (fs.lookup "duration_minutes").getD l.duration_minutes
    description := getStrField fs "description" l.description
    category := getStrField fs "category" l.category
    status := getStrField fs "status" l.status
    reviewed_by :=
      match fs.lookup "reviewed_by" with
      | some (.str s) => some s
      | some .null => none
      | _ => l.reviewed_by
    reviewed_at :=
      match fs.lookup "reviewed_at" with
      | some (.num q) => some q
      | some .null => none
      | _ => l.reviewed_at
    created_at :=
      match fs.lookup "created_at" with
      | some (.num q) => q
      | _ => l.created_at }

/-- Apply a field set to a `shifts` row. -/
def applyShiftFieldSet (s : Shift) (fs : List (String × JSVal)) : Shift :=
  { id := getStrField fs "id" s.id
    user_id := getStrField fs "user_id" s.user_id
    category := getStrField fs "category" s.category
    task_description := getStrField fs "task_description" s.task_description
    start_time :=
      match fs.lookup "start_time" with
      | some (.num q) => q
      | _ => s.start_time
    end_time :=
      match fs.lookup "end_time" with
      | some (.num q) => some q
      | some .null => none
      | _ => s.end_time
    status := getStrField fs "status" s.status
    duration_minutes := (fs.lookup "duration_minutes").getD s.duration_minutes }

/-- Modelled from the spec: the storage layer's database trigger, which is not
part of the repository source under `src/` (the source comment at
`checkOut` says "the DB trigger calculates duration_minutes and sets
status='completed'", and the spec says duration is "computed at completion
(end − start, in minutes) by the storage layer's own logic").  On a row whose
end timestamp is set, the trigger computes the duration from the timestamps
and marks the shift completed. -/
def dbCheckoutTrigger (s : Shift) : Shift :=
  match s.end_time with
  | none => s
  | some e =>
      { s with status := "completed", duration_minutes := .num (e - s.start_time) }

/-- The storage-side effect of one `checkOut` write on a shift row: apply the
module's field set (which names only `end_time`), then the trigger. -/
def shiftAfterCheckout (s : Shift) (now : ℚ) : Shift :=
  dbCheckoutTrigger (applyShiftFieldSet s [("end_time", .num now)])

/-! Claim-side definitions, written from the specification's words, for the
summation claims: the clean numeric reading of a duration value, and the
specified shift-minutes total. -/

/-- The specification's reading of a duration value: a number counts as
itself, a numeric string as its parsed value, and a null / undefined / NaN /
unparsable value is excluded. -/
def specDurationValue : JSVal → Option ℚ
  | .num q => some q
  | .str t => parseDec t
  | _ => none

/-- The specification's shift-minutes total: the sum of the numeric duration
values over the shifts with status `completed`, excluded values dropped
(dropping an excluded or zero value and adding zero for it agree on a sum, so
the specified total is stated with `filterMap`). -/
def specShiftMinutes (shifts : List Shift) : ℚ :=
  (((shifts.filter fun s => s.status == "completed").filterMap
      fun s => specDurationValue s.duration_minutes).sum)

/-- The value domain the summation claims quantify over: numbers, numeric
strings, and the absent/invalid values (null, undefined, NaN) — everything the
storage layer can return in `duration_minutes`. -/
def benignDuration : JSVal → Bool
  | .num _ => true
  | .str t => (parseDec t).isSome
  | .null => true
  | .undef => true
  | .nan => true
  | .inf => false
  | .ninf => false

/-- The formula the code applies to obtain `progressPercent` from `totalHours`
and `goal`: `Math.min((totalHours / goal) * 100, 100)`. -/
def percentFormula (totalHours : JSVal) (goal : ℚ) : JSVal :=
  jsMin (jsMul (jsDiv totalHours (.num goal)) (.num 100)) (.num 100)

/-! Sample rows, used to instantiate theorems with hypotheses at concrete
inputs. -/

/-- A shift row with the given status and duration value. -/
def mkShift (st : String) (d : JSVal) : Shift :=
  { id := "s1", user_id := "u1", category := "tutoring", task_description := "t"
    start_time := 0, end_time := none, status := st, duration_minutes := d }

/-- A manual-log row with the given status and duration value. -/
def mkLog (st : String) (d : JSVal) : ManualLog :=
  { id := "l1", user_id := "u1", date := "2026-02-15", duration_minutes := d
    description := "library help", category := "community_service", status := st
    reviewed_by := none, reviewed_at := none, created_at := 0 }

/-! Computation lemmas about the JavaScript operations, used throughout. -/

theorem jsAdd_num_num (a b : ℚ) : jsAdd (.num a) (.num b) = .num (a + b) := rfl

theorem jsAdd_num_null (a : ℚ) : jsAdd (.num a) .null = .num a := by
  simp [jsAdd, isStr, toNumberV, numAdd]

theorem jsAdd_num_undef (a : ℚ) : jsAdd (.num a) .undef = .nan := rfl

theorem jsAdd_num_nan (a : ℚ) : jsAdd (.num a) .nan = .nan := rfl

theorem jsAdd_nan_num (b : ℚ) : jsAdd .nan (.num b) = .nan := rfl

theorem jsAdd_nan_null : jsAdd .nan .null = .nan := rfl

theorem jsAdd_nan_undef : jsAdd .nan .undef = .nan := rfl

theorem jsDiv_num_num (a : ℚ) {b : ℚ} (hb : b ≠ 0) :
    jsDiv (.num a) (.num b) = .num (a / b) := by
  simp [jsDiv, toNumberV, numDiv, hb]

theorem jsDiv_nan_num (b : ℚ) : jsDiv .nan (.num b) = .nan := rfl

theorem jsMul_num_num (a b : ℚ) : jsMul (.num a) (.num b) = .num (a * b) := rfl

theorem jsMul_nan_num (b : ℚ) : jsMul .nan (.num b) = .nan := rfl

theorem jsMin_num_num (a b : ℚ) : jsMin (.num a) (.num b) = .num (min a b) := by
  by_cases h : a ≤ b
  · simp [jsMin, toNumberV, numLe, h, min_def]
  · simp [jsMin, toNumberV, numLe, h, min_def]

theorem jsMin_nan_num (b : ℚ) : jsMin .nan (.num b) = .nan := rfl

theorem parseFloatV_num (q : ℚ) : parseFloatV (.num q) = .num q := rfl

theorem parseDec_empty : parseDec "" = none := rfl

theorem parseDec_some_ne_empty {t : String} {q : ℚ} (h : parseDec t = some q) :
    t ≠ "" := by
  intro he
  rw [he, parseDec_empty] at h
  exact Option.noConfusion h

theorem truthy_str (t : String) : truthy (.str t) = (t != "") := rfl

theorem truthy_num (q : ℚ) : truthy (.num q) = (q != 0) := rfl

theorem truthy_null : truthy .null = false := rfl

theorem truthy_undef : truthy .undef = false := rfl

theorem truthy_nan : truthy .nan = false := rfl

end ShiftLogic

namespace ShiftLogic

/-- One step of the specified shift-minutes total. -/
theorem specShiftMinutes_cons (s : Shift) (rest : List Shift) :
    specShiftMinutes (s :: rest)
      = (if s.status == "completed"
          then (specDurationValue s.duration_minutes).getD 0 else 0)
        + specShiftMinutes rest := by
  by_cases hc : s.status == "completed" <;>
    cases hspec : specDurationValue s.duration_minutes <;>
      simp [specShiftMinutes, List.filter_cons, List.filterMap_cons, hc, hspec]

/-- The shift-minutes fold of `calculateProgress`, evaluated against the
specified sum: over any shift list whose duration values lie in the domain the
storage layer produces (numbers, numeric strings, null, undefined, NaN), the
code's filter-then-reduce with `parseFloat` computes a finite number, namely
the accumulator plus the specified total. -/
theorem shiftFold_eq_spec (shifts : List Shift)
    (h : ∀ s ∈ shifts, benignDuration s.duration_minutes = true) (a : ℚ) :
    ((shifts.filter fun s => s.status == "completed" && truthy s.duration_minutes).foldl
        (fun sum s => jsAdd sum (parseFloatV s.duration_minutes)) (.num a))
      = .num (a + specShiftMinutes shifts) := by
  induction shifts generalizing a with
  | nil => simp [specShiftMinutes]
  | cons s rest ih =>
    have hben : benignDuration s.duration_minutes = true := h s (by simp)
    have hrest : ∀ x ∈ rest, benignDuration x.duration_minutes = true :=
      fun x hx => h x (List.mem_cons_of_mem _ hx)
    rw [specShiftMinutes_cons, List.filter_cons]
    by_cases hc : s.status == "completed"
    · cases hd : s.duration_minutes with
      | num q =>
        by_cases hq : q = 0
        · have ht : truthy (JSVal.num q) = false := by
            rw [truthy_num]; simpa using hq
          rw [hc, ht]
          simp only [Bool.and_false, Bool.false_eq_true, if_false]
          rw [ih hrest]
          simp [specDurationValue, hq]
        · have ht : truthy (JSVal.num q) = true := by
            rw [truthy_num]; simpa using hq
          rw [hc, ht]
          simp only [Bool.and_self, if_true, List.foldl_cons, hd,
            parseFloatV_num, jsAdd_num_num]
          rw [ih hrest]
          simp [specDurationValue, add_assoc]
      | nan =>
        rw [hc, truthy_nan]
        simp only [Bool.and_false, Bool.false_eq_true, if_false]
        rw [ih hrest]
        simp [specDurationValue]
      | inf => simp [benignDuration, hd] at hben
      | ninf => simp [benignDuration, hd] at hben
      | str t =>
        have hsome : (parseDec t).isSome = true := by
          simpa [benignDuration, hd] using hben
        obtain ⟨q, hq⟩ := Option.isSome_iff_exists.mp hsome
        have hne : t ≠ "" := parseDec_some_ne_empty hq
        have ht : truthy (JSVal.str t) = true := by
          rw [truthy_str]; simpa using hne
        have hp : parseFloatV (JSVal.str t) = .num q := by
          simp [parseFloatV, hq]
        rw [hc, ht]
        simp only [Bool.and_self, if_true, List.foldl_cons, hd, hp,
          jsAdd_num_num]
        rw [ih hrest]
        simp [specDurationValue, hq, add_assoc]
      | null =>
        rw [hc, truthy_null]
        simp only [Bool.and_false, Bool.false_eq_true, if_false]
        rw [ih hrest]
        simp [specDurationValue]
      | undef =>
        rw [hc, truthy_undef]
        simp only [Bool.and_false, Bool.false_eq_true, if_false]
        rw [ih hrest]
        simp [specDurationValue]
    · have hcf : (s.status == "completed") = false := by simpa using hc
      rw [hcf]
      simp only [Bool.false_and, Bool.false_eq_true, if_false]
      rw [ih hrest]
      simp [hcf]

/-- C1.  For every list of shifts, `calculateProgress` computes `shiftMinutes`
as the sum of `duration_minutes` over exactly the shifts whose status is
`completed` and whose `duration_minutes` is truthy — so a zero, null,
undefined or NaN duration is dropped from the sum rather than added as zero,
and the sum stays a finite number — with each summed value coerced to a number
(numeric strings are accepted at their parsed value), and reports
`shiftHours = shiftMinutes / 60`.  Stated over every duration value the
storage layer can return (`benignDuration`), the computed `shiftHours` equals
the specified clean sum divided by 60. -/
theorem claim_C1_shift_sum (shifts : List Shift) (logs : List ManualLog) (goal : ℚ)
    (h : ∀ s ∈ shifts, benignDuration s.duration_minutes = true) :
    (computeProgress shifts logs goal).shiftHours
      = .num (specShiftMinutes shifts / 60) := by
  have h60 : (60 : ℚ) ≠ 0 := by norm_num
  simp only [computeProgress]
  rw [shiftFold_eq_spec shifts h 0, jsDiv_num_num _ h60, zero_add]

/-- Witness for C1: a concrete shift list containing a plain number, a numeric
string, a zero, a null, an undefined, a NaN and an active shift; the
hypothesis is discharged by `decide` and the specified sum is evaluated. -/
theorem claim_C1_shift_sum_witness :
    (computeProgress
        [mkShift "completed" (.num 120), mkShift "completed" (.str "45.5"),
         mkShift "completed" (.num 0), mkShift "completed" .null,
         mkShift "completed" .undef, mkShift "completed" .nan,
         mkShift "active" (.num 60)] [] 150).shiftHours
      = .num (specShiftMinutes
          [mkShift "completed" (.num 120), mkShift "completed" (.str "45.5"),
           mkShift "completed" (.num 0), mkShift "completed" .null,
           mkShift "completed" .undef, mkShift "completed" .nan,
           mkShift "active" (.num 60)] / 60) :=
  claim_C1_shift_sum _ [] 150 (by decide)

/-- C2.  `calculateProgress` computes `approvedManualHours` from exactly the
logs whose status is `approved`: inserting a log whose status is `pending` or
`rejected` anywhere in the list changes neither `approvedManualHours` nor
`totalHours` (so such logs contribute 0 regardless of their duration value);
`approvedManualHours` depends only on the approved sub-list; and `pendingLogs`
is the count of logs with status `pending`. -/
theorem claim_C2_approved_only (shifts : List Shift) (pre post : List ManualLog)
    (l : ManualLog) (goal : ℚ)
    (h : l.status = "pending" ∨ l.status = "rejected") :
    ((computeProgress shifts (pre ++ l :: post) goal).approvedManualHours
        = (computeProgress shifts (pre ++ post) goal).approvedManualHours)
    ∧ ((computeProgress shifts (pre ++ l :: post) goal).totalHours
        = (computeProgress shifts (pre ++ post) goal).totalHours)
    ∧ (∀ logs1 logs2 : List ManualLog,
        (logs1.filter fun x => x.status == "approved")
            = (logs2.filter fun x => x.status == "approved") →
        (computeProgress shifts logs1 goal).approvedManualHours
          = (computeProgress shifts logs2 goal).approvedManualHours)
    ∧ (∀ logs : List ManualLog,
        (computeProgress shifts logs goal).pendingLogs
          = logs.countP fun x => x.status == "pending") := by
  have hl : (l.status == "approved") = false := by
    rcases h with h | h <;> simp [h]
  have hfil : ((pre ++ l :: post).filter fun x => x.status == "approved")
      = ((pre ++ post).filter fun x => x.status == "approved") := by
    simp [List.filter_append, List.filter_cons, hl]
  refine ⟨?_, ?_, ?_, ?_⟩
  · simp only [computeProgress]
    rw [hfil]
  · simp only [computeProgress]
    rw [hfil]
  · intro logs1 logs2 hf
    simp only [computeProgress]
    rw [hf]
  · intro logs
    simp [computeProgress, List.countP_eq_length_filter]

/-- Witness for C2: inserting a concrete pending log in front of one approved
log leaves `approvedManualHours` unchanged. -/
theorem claim_C2_approved_only_witness :
    (computeProgress [] ([] ++ mkLog "pending" (.num 120) :: [mkLog "approved" (.num 60)])
        150).approvedManualHours
      = (computeProgress [] ([] ++ [mkLog "approved" (.num 60)]) 150).approvedManualHours :=
  (claim_C2_approved_only [] [] [mkLog "approved" (.num 60)]
    (mkLog "pending" (.num 120)) 150 (Or.inl rfl)).1

/-- C3.  `calculateProgress` reports
`progressPercent = min((totalHours / goal) * 100, 100)` for every positive
goal: on every finite `totalHours` value the formula evaluates to the clamped
quotient, it is 100 whenever `totalHours ≥ goal`, it is `(totalHours/goal)*100`
otherwise, it is monotonically non-decreasing in `totalHours`, and
`totalHours` itself is reported uncapped (the concrete run with 10000 shift
minutes against goal 100 reports `totalHours = 500/3 > 100` while
`progressPercent` is clamped to 100). -/
theorem claim_C3_percent_clamped (shifts : List Shift) (logs : List ManualLog)
    (goal : ℚ) (hg : 0 < goal) :
    ((computeProgress shifts logs goal).progressPercent
        = percentFormula (computeProgress shifts logs goal).totalHours goal)
    ∧ (∀ x : ℚ, percentFormula (.num x) goal = .num (min (x / goal * 100) 100))
    ∧ (∀ x : ℚ, goal ≤ x → percentFormula (.num x) goal = .num 100)
    ∧ (∀ x : ℚ, x < goal → percentFormula (.num x) goal = .num (x / goal * 100))
    ∧ (∀ x y : ℚ, x ≤ y → min (x / goal * 100) 100 ≤ min (y / goal * 100) 100)
    ∧ ((computeProgress [mkShift "completed" (.num 10000)] [] 100).totalHours
          = .num (500 / 3)
        ∧ (100 : ℚ) < 500 / 3
        ∧ (computeProgress [mkShift "completed" (.num 10000)] [] 100).progressPercent
          = .num 100) := by
  have hg0 : goal ≠ 0 := ne_of_gt hg
  have hformula : ∀ x : ℚ, percentFormula (.num x) goal
      = .num (min (x / goal * 100) 100) := by
    intro x
    rw [percentFormula, jsDiv_num_num _ hg0, jsMul_num_num, jsMin_num_num]
  have hsm := shiftFold_eq_spec [mkShift "completed" (.num 10000)] (by decide) 0
  have hspec : specShiftMinutes [mkShift "completed" (.num 10000)] = 10000 := by
    simp [specShiftMinutes, mkShift, specDurationValue]
  have htot : (computeProgress [mkShift "completed" (.num 10000)] [] 100).totalHours
      = .num (500 / 3) := by
    simp only [computeProgress, List.filter_nil, List.foldl_nil]
    rw [hsm, hspec, jsAdd_num_num]
    rw [jsDiv_num_num _ (by norm_num : (60 : ℚ) ≠ 0)]
    norm_num
  refine ⟨?_, hformula, ?_, ?_, ?_, htot, by norm_num, ?_⟩
  · rfl
  · intro x hx
    rw [hformula x]
    have h1 : (100 : ℚ) ≤ x / goal * 100 := by
      have : (1 : ℚ) ≤ x / goal := (one_le_div hg).mpr hx
      nlinarith
    rw [min_eq_right h1]
  · intro x hx
    rw [hformula x]
    have h1 : x / goal * 100 ≤ 100 := by
      have : x / goal < 1 := (div_lt_one hg).mpr hx
      nlinarith
    rw [min_eq_left h1]
  · intro x y hxy
    have h2 : x / goal * 100 ≤ y / goal * 100 := by gcongr
    exact min_le_min h2 le_rfl
  · simp only [computeProgress, List.filter_nil, List.foldl_nil]
    rw [hsm, hspec, jsAdd_num_num]
    rw [jsDiv_num_num _ (by norm_num : (60 : ℚ) ≠ 0)]
    rw [jsDiv_num_num _ (by norm_num : (100 : ℚ) ≠ 0), jsMul_num_num,
      jsMin_num_num]
    rw [min_eq_right (by norm_num)]

/-- Witness for C3: at goal 150, the clamp conjunct applied at
`totalHours = 300 ≥ 150` yields exactly 100. -/
theorem claim_C3_percent_clamped_witness :
    (0 : ℚ) < 150 ∧ percentFormula (.num 300) 150 = .num 100 :=
  ⟨by norm_num, (claim_C3_percent_clamped [] [] 150 (by norm_num)).2.2.1 300 (by norm_num)⟩

/-- C4.  Whenever the precondition read reports an active shift, `checkIn`
(in both versions of the module) fails with the conflict error carrying the
user-facing message and issues no write; conversely, a write is only issued
when the precondition read reported no active shift. -/
theorem claim_C4_checkin_conflict (userId category desc : String) (now : ℚ)
    (s : Shift) (insertResp : Resp Shift) (insertResp2 : TResp Shift) :
    (V1.checkIn userId category desc now (.ok (some s)) insertResp
        = (.error (.conflict checkInConflictMsg), []))
    ∧ (V2.checkIn userId category desc now (.ready (.ok (some s))) insertResp2
        = (.error (.conflict checkInConflictMsg), []))
    ∧ checkInConflictMsg ≠ ""
    ∧ (∀ activeResp : Resp (Option Shift),
        (V1.checkIn userId category desc now activeResp insertResp).2 ≠ [] →
        activeResp = .ok none)
    ∧ (∀ activeResp : TResp (Option Shift),
        (V2.checkIn userId category desc now activeResp insertResp2).2 ≠ [] →
        activeResp = .ready (.ok none)) := by
  refine ⟨rfl, rfl, by decide, ?_, ?_⟩
  · intro activeResp hr
    match activeResp with
    | .ok none => rfl
    | .ok (some _) => exact absurd rfl hr
    | .fail e => exact absurd rfl hr
  · intro activeResp hr
    match activeResp with
    | .ready (.ok none) => rfl
    | .ready (.ok (some _)) => exact absurd rfl hr
    | .ready (.fail e) => exact absurd rfl hr
    | .aborted => exact absurd rfl hr

/-- Witness for C4: a concrete user with an active shift gets the conflict
error and no write is issued. -/
theorem claim_C4_checkin_conflict_witness :
    V1.checkIn "u1" "tutoring" "math help" 0
        (.ok (some (mkShift "active" .null))) (.ok (mkShift "active" .null))
      = (.error (.conflict checkInConflictMsg), []) :=
  (claim_C4_checkin_conflict "u1" "tutoring" "math help" 0
    (mkShift "active" .null) (.ok (mkShift "active" .null))
    (.ready (.ok (mkShift "active" .null)))).1

/-- C5.  `submitManualLog` issues exactly one insert, whose field set carries
`status = 'pending'` unconditionally: the only `status` entry in the field set
is `'pending'`, and the issued write is independent of any extra payload
fields (in particular of a caller-supplied `status: 'approved'`), in both
versions of the module. -/
theorem claim_C5_status_forced_pending (userId : String) (p : ManualLogPayload)
    (resp : Resp ManualLog) (resp2 : TResp ManualLog) :
    (∃ fields, (V1.submitManualLog userId p resp).2 = [.insert "manual_logs" fields]
        ∧ fields.lookup "status" = some (.str "pending")
        ∧ ∀ v, ("status", v) ∈ fields → v = .str "pending")
    ∧ ((V1.submitManualLog userId p resp).2
        = (V1.submitManualLog userId { p with extra := [] } resp).2)
    ∧ ((V2.submitManualLog userId p resp2).2
        = (V2.submitManualLog userId { p with extra := [] } resp2).2)
    ∧ ((V2.submitManualLog userId p resp2).2 = (V1.submitManualLog userId p resp).2) := by
  refine ⟨⟨_, rfl, rfl, ?_⟩, rfl, rfl, rfl⟩
  intro v hv
  simp only [List.mem_cons, List.not_mem_nil, or_false, Prod.mk.injEq] at hv
  simp at hv
  exact hv

/-- Witness for C5: with a payload carrying an extra `status: 'approved'`
field, the issued write equals the one issued without it. -/
theorem claim_C5_status_forced_pending_witness :
    (V1.submitManualLog "u1"
        { date := "2026-02-15", durationMinutes := .num 180,
          description := "library help", category := "community_service",
          extra := [("status", .str "approved")] }
        (.ok (mkLog "pending" (.num 180)))).2
      = (V1.submitManualLog "u1"
          { date := "2026-02-15", durationMinutes := .num 180,
            description := "library help", category := "community_service",
            extra := [] }
          (.ok (mkLog "pending" (.num 180)))).2 :=
  (claim_C5_status_forced_pending "u1"
    { date := "2026-02-15", durationMinutes := .num 180,
      description := "library help", category := "community_service",
      extra := [("status", .str "approved")] }
    (.ok (mkLog "pending" (.num 180)))
    (.ready (.ok (mkLog "pending" (.num 180))))).2.1

/-- Division by the literal 60, as in the hours conversions. -/
theorem jsDiv_num_sixty (a : ℚ) : jsDiv (.num a) (.num 60) = .num (a / 60) :=
  jsDiv_num_num a (by norm_num)

/-- Counterexample to C6 as stated: on a list holding exactly one approved
manual log whose `duration_minutes` is null, the null does NOT propagate as
NaN — JavaScript numeric addition coerces null to 0, so `approvedManualHours`
and `totalHours` are the finite number 0. -/
theorem claim_C6_counterexample :
    (computeProgress [] [mkLog "approved" .null] 150).approvedManualHours = .num 0
    ∧ (computeProgress [] [mkLog "approved" .null] 150).totalHours = .num 0
    ∧ (computeProgress [] [mkLog "approved" .null] 150).approvedManualHours ≠ .nan
    ∧ (computeProgress [] [mkLog "approved" .null] 150).totalHours ≠ .nan := by
  have e1 : (computeProgress [] [mkLog "approved" .null] 150).approvedManualHours
      = .num 0 := by
    simp [computeProgress, mkLog, jsAdd_num_null, jsDiv_num_sixty]
  have e2 : (computeProgress [] [mkLog "approved" .null] 150).totalHours
      = .num 0 := by
    simp [computeProgress, mkLog, jsAdd_num_null, jsAdd_num_num, jsDiv_num_sixty]
  exact ⟨e1, e2, by simp [e1], by simp [e2]⟩

/-- C6 as amended.  The approved-manual-minutes summation applies no
truthy-filter and no `parseFloat` coercion: an approved log participates in
the numeric addition whatever its `duration_minutes` is; a null duration is
coerced to 0 by the addition itself (so it contributes 0 rather than being
dropped), while an undefined duration does propagate as NaN into
`approvedManualHours` and `totalHours`. -/
theorem claim_C6_amended (logs : List ManualLog) (l : ManualLog) :
    (l ∈ logs → l.status = "approved" →
        l ∈ logs.filter fun x => x.status == "approved")
    ∧ (∀ q : ℚ, jsAdd (.num q) .null = .num q)
    ∧ (∀ q : ℚ, jsAdd (.num q) .undef = .nan)
    ∧ (computeProgress [] [mkLog "approved" .null, mkLog "approved" (.num 60)]
          150).approvedManualHours = .num 1
    ∧ (computeProgress [] [mkLog "approved" .undef] 150).approvedManualHours = .nan
    ∧ (computeProgress [] [mkLog "approved" .undef] 150).totalHours = .nan := by
  refine ⟨?_, jsAdd_num_null, jsAdd_num_undef, ?_, ?_, ?_⟩
  · intro hm hs
    simpa [List.mem_filter, hs] using hm
  · have : ((0 : ℚ) + 60) / 60 = 1 := by norm_num
    simp [computeProgress, mkLog, jsAdd_num_null, jsAdd_num_num,
      jsDiv_num_sixty, this]
  · simp [computeProgress, mkLog, jsAdd_num_undef, jsDiv_nan_num]
  · simp [computeProgress, mkLog, jsAdd_num_undef, jsAdd_num_nan,
    jsDiv_nan_num]

/-- Witness for C6 (amended): a concrete approved log with null duration is
kept by the status filter and the addition coerces its null to 0. -/
theorem claim_C6_amended_witness :
    mkLog "approved" .null
        ∈ [mkLog "approved" .null].filter (fun x => x.status == "approved")
    ∧ jsAdd (.num 5) .null = .num 5 :=
  ⟨(claim_C6_amended [mkLog "approved" .null] (mkLog "approved" .null)).1
      (by simp) rfl,
   (claim_C6_amended [] (mkLog "approved" .null)).2.1 5⟩

/-- C7.  `approveLog` and `rejectLog` each issue exactly one field-set update
naming only `status`, `reviewed_by` and `reviewed_at`; under the record
store's field-set semantics the updated row carries the new status (approved
resp. rejected), `reviewed_by = adminId` and `reviewed_at = now` — the clock
reading taken during the call, which lies between the call's start and end —
and every other column unchanged.  The update is built from the arguments
alone, for every prior state of the log (no guard against re-reviewing), and
the operation returns the updated record as the storage reports it. -/
theorem claim_C7_review_fieldset (log : ManualLog) (logId adminId : String)
    (now tStart tEnd : ℚ) (resp : Resp ManualLog)
    (h1 : tStart ≤ now) (h2 : now ≤ tEnd) :
    ((V1.approveLog logId adminId now resp).2
        = [.update "manual_logs" logId
            [("status", .str "approved"), ("reviewed_by", .str adminId),
             ("reviewed_at", .num now)]])
    ∧ ((V1.rejectLog logId adminId now resp).2
        = [.update "manual_logs" logId
            [("status", .str "rejected"), ("reviewed_by", .str adminId),
             ("reviewed_at", .num now)]])
    ∧ (applyLogFieldSet log
          [("status", .str "approved"), ("reviewed_by", .str adminId),
           ("reviewed_at", .num now)]
        = { log with
            status := "approved"
            reviewed_by := some adminId
            reviewed_at := some now })
    ∧ (applyLogFieldSet log
          [("status", .str "rejected"), ("reviewed_by", .str adminId),
           ("reviewed_at", .num now)]
        = { log with
            status := "rejected"
            reviewed_by := some adminId
            reviewed_at := some now })
    ∧ (tStart ≤ now ∧ now ≤ tEnd)
    ∧ (∀ u : ManualLog, resp = .ok u →
        (V1.approveLog logId adminId now resp).1 = .ok u
        ∧ (V1.rejectLog logId adminId now resp).1 = .ok u) := by
  refine ⟨rfl, rfl, rfl, rfl, ⟨h1, h2⟩, ?_⟩
  intro u hu
  subst hu
  exact ⟨rfl, rfl⟩

/-- Witness for C7: applied to a log that is already approved (so the absence
of a re-review guard is exercised) with a clock reading between the bounds. -/
theorem claim_C7_review_fieldset_witness :
    (V1.approveLog "log-001" "admin-123" 5 (.ok (mkLog "approved" (.num 60)))).2
      = [.update "manual_logs" "log-001"
          [("status", .str "approved"), ("reviewed_by", .str "admin-123"),
           ("reviewed_at", .num 5)]] :=
  (claim_C7_review_fieldset (mkLog "approved" (.num 60)) "log-001" "admin-123"
    5 0 10 (.ok (mkLog "approved" (.num 60))) (by norm_num) (by norm_num)).1

/-- C8.  `checkOut` unconditionally issues exactly one update whose field set
names only `end_time` (it writes neither status nor duration itself); the
store applies that write and its trigger then computes the duration and marks
the shift completed, and the operation returns the record the storage
reports.  It receives no user or active-state input at all — the theorem
quantifies over every prior shift row, including already-completed ones — and
a second `checkOut` on the same row simply overwrites the end timestamp: the
final state carries the second clock reading (last checkout wins). -/
theorem claim_C8_checkout_overwrites (shiftId : String) (now now2 : ℚ)
    (resp : Resp Shift) (s : Shift) :
    ((V1.checkOut shiftId now resp).2
        = [.update "shifts" shiftId [("end_time", .num now)]])
    ∧ (applyShiftFieldSet s [("end_time", .num now)] = { s with end_time := some now })
    ∧ (shiftAfterCheckout s now
        = { s with
            end_time := some now
            status := "completed"
            duration_minutes := .num (now - s.start_time) })
    ∧ (shiftAfterCheckout (shiftAfterCheckout s now) now2
        = { s with
            end_time := some now2
            status := "completed"
            duration_minutes := .num (now2 - s.start_time) })
    ∧ (∀ u : Shift, resp = .ok u → (V1.checkOut shiftId now resp).1 = .ok u)
    ∧ ((V2.checkOut shiftId now (.ready resp)) = V1.checkOut shiftId now resp) := by
  refine ⟨rfl, rfl, rfl, rfl, ?_, ?_⟩
  · intro u hu
    subst hu
    rfl
  · cases resp <;> rfl

/-- Witness for C8: two successive checkouts of a concrete active shift leave
the second end timestamp and the storage-computed duration. -/
theorem claim_C8_checkout_overwrites_witness :
    shiftAfterCheckout (shiftAfterCheckout (mkShift "active" .null) 90) 120
      = { mkShift "active" .null with
          end_time := some 120
          status := "completed"
          duration_minutes := .num (120 - 0) } := by
  have h := (claim_C8_checkout_overwrites "s1" 90 120
    (.ok (mkShift "active" .null)) (mkShift "active" .null)).2.2.2.1
  simpa [mkShift] using h

end ShiftLogic

namespace ShiftLogic

/-- C9.  When the underlying fetch yields no rows or a null/undefined result
(both map to an absent value at the module boundary), `getShifts`,
`getManualLogs` and `getAllPendingLogs` return the empty sequence — never a
null or undefined value, which in this typed embedding is expressed by the
`data || []` fallback producing `[]` in both the null-result and
zero-row cases — and `getActiveShift` returns "none" rather than throwing on
absence; the same holds in the timeout-wrapped version. -/
theorem claim_C9_empty_on_absent :
    V1.getShifts (.ok none) = .ok []
    ∧ V1.getShifts (.ok (some [])) = .ok []
    ∧ V1.getManualLogs (.ok none) = .ok []
    ∧ V1.getManualLogs (.ok (some [])) = .ok []
    ∧ V1.getAllPendingLogs (.ok none) = .ok []
    ∧ V1.getAllPendingLogs (.ok (some [])) = .ok []
    ∧ V1.getActiveShift (.ok none) = .ok none
    ∧ V2.getShifts (.ready (.ok none)) = .ok []
    ∧ V2.getShifts (.ready (.ok (some []))) = .ok []
    ∧ V2.getManualLogs (.ready (.ok none)) = .ok []
    ∧ V2.getAllPendingLogs (.ready (.ok none)) = .ok []
    ∧ V2.getActiveShift (.ready (.ok none)) = .ok none :=
  ⟨rfl, rfl, rfl, rfl, rfl, rfl, rfl, rfl, rfl, rfl, rfl, rfl⟩

/-- C10.  The plain and the timeout-wrapped versions of the module are
observationally equivalent on every execution in which the storage
collaborator responds without error before the timeout: quantifying over all
arguments and all error-free, pre-timeout collaborator responses (a `.ready
(.ok _)` response on the wrapped side and the same `.ok _` response on the
plain side), all ten operations return identical results, writes included. -/
theorem claim_C10_versions_equivalent
    (userId category desc shiftId logId adminId : String) (now goal : ℚ)
    (p : ManualLogPayload) (active : Option Shift) (ins co : Shift)
    (sh : Option (List Shift)) (ml : Option (List ManualLog))
    (mlIns rev : ManualLog) (summ : Option (List StudentSummary))
    (pend : Option (List PendingRow)) :
    (V2.checkIn userId category desc now (.ready (.ok active)) (.ready (.ok ins))
        = V1.checkIn userId category desc now (.ok active) (.ok ins))
    ∧ (V2.checkOut shiftId now (.ready (.ok co)) = V1.checkOut shiftId now (.ok co))
    ∧ (V2.getShifts (.ready (.ok sh)) = V1.getShifts (.ok sh))
    ∧ (V2.getManualLogs (.ready (.ok ml)) = V1.getManualLogs (.ok ml))
    ∧ (V2.submitManualLog userId p (.ready (.ok mlIns))
        = V1.submitManualLog userId p (.ok mlIns))
    ∧ (V2.calculateProgress (.ready (.ok sh)) (.ready (.ok ml)) goal
        = V1.calculateProgress (.ok sh) (.ok ml) goal)
    ∧ (V2.approveLog logId adminId now (.ready (.ok rev))
        = V1.approveLog logId adminId now (.ok rev))
    ∧ (V2.rejectLog logId adminId now (.ready (.ok rev))
        = V1.rejectLog logId adminId now (.ok rev))
    ∧ (V2.getAllStudentsSummary (.ready (.ok summ)) = V1.getAllStudentsSummary (.ok summ))
    ∧ (V2.getAllPendingLogs (.ready (.ok pend)) = V1.getAllPendingLogs (.ok pend)) := by
  refine ⟨?_, rfl, rfl, rfl, rfl, rfl, rfl, rfl, rfl, rfl⟩
  cases active <;> rfl

end ShiftLogic
